import Mathlib

/-!
Verification of the context/module instrumenter
(`src/instrument-context-module.js`).

The source is a factory taking two optional callbacks (`handleContext`,
`handleModule`) and returning two wrapper functions (`context`, `module`).
Each wrapper clones the provided regex (via `regexp-clone`), patches the
clone's `test` method to record matches in closure state
(`lastContext`, `lastModule`, `reportedContext`) and to invoke a shared
`report` step, and returns the clone.

We embed this in two layers:

* a runtime layer (`Config`, `MState`, `report`, `ctxTestCall`,
  `modTestCall`, `run`): the behaviour of the two patched `test`
  methods and the `report` step, with the callback invocations recorded
  as an event trace.  The regex engine is external; a pattern's matching
  semantics is a function `String → Bool`.  JavaScript truthiness of the
  nullable string variables (`null` and `""` are falsy) is embedded by
  `truthy`.
* a setup layer (`JState`, `regexpClone`, `contextWrap`, `moduleWrap`):
  the once-only wrapper functions, with regex objects living in an
  explicit heap so that object identity, cloning and in-place patching
  of the clone's `test` method are observable.
-/

/-- JavaScript truthiness of the nullable string variables
`lastContext` / `lastModule`: `null` and the empty string are falsy. -/
def truthy : Option String → Bool
  | none => false
  | some s => !(s == "")

/-- Fixed per-instance data after both wrappers have been called:
whether each callback was provided, the identities of the two stored
(cloned) regex objects, and the matching semantics of each regex. -/
structure Config where
  handleContext : Bool
  handleModule : Bool
  ctxId : Nat
  modId : Nat
  ctxTest : String → Bool
  modTest : String → Bool

/-- Mutable closure state of the instrumenter:
`lastContext`, `lastModule` (both `null` initially) and
`reportedContext`. -/
structure MState where
  lastContext : Option String
  lastModule : Option String
  reportedContext : Bool
deriving DecidableEq, Repr

/-- Initial closure state: `lastContext = null`, `lastModule = null`,
`reportedContext = false`. -/
def initState : MState := ⟨none, none, false⟩

/-- An observable callback invocation.
`onContext c ctxPat modPat` records `handleContext(lastContext,
contextRegex, moduleRegex)`; `onModule m c ctxPat modPat` records
`handleModule(lastModule, lastContext, contextRegex, moduleRegex)`.
Regex objects are recorded by their heap identity. -/
inductive Event where
  | onContext (c : String) (ctxPat modPat : Nat)
  | onModule (m c : String) (ctxPat modPat : Nat)
deriving DecidableEq, Repr

/-- The `report` step of the source (lines 38–48): first the
`handleContext` branch (guarded by `handleContext && lastContext &&
lastModule && !reportedContext`, setting `reportedContext = true`),
then the `handleModule` branch (guarded by `handleModule &&
lastContext && lastModule`, clearing `lastModule = null`).  Emitted
callback invocations are returned as events, in order. -/
def report (cfg : Config) (st : MState) : MState × List Event :=
  let p1 : MState × List Event :=
    if cfg.handleContext && truthy st.lastContext && truthy st.lastModule
        && !st.reportedContext then
      ({ st with reportedContext := true },
       [Event.onContext (st.lastContext.getD "") cfg.ctxId cfg.modId])
    else (st, [])
  let p2 : MState × List Event :=
    if cfg.handleModule && truthy p1.1.lastContext && truthy p1.1.lastModule then
      ({ p1.1 with lastModule := none },
       [Event.onModule (p1.1.lastModule.getD "") (p1.1.lastContext.getD "")
          cfg.ctxId cfg.modId])
    else (p1.1, [])
  (p2.1, p1.2 ++ p2.2)

/-- The patched `contextRegex.test` (lines 62–71): delegate to the
original `test` to get `result`; if `result` is truthy and the argument
differs from `lastContext`, set `lastContext` and invoke `report`;
return `result` unchanged.  Returns (new state, emitted events,
returned boolean). -/
def ctxTestCall (cfg : Config) (st : MState) (s : String) :
    MState × List Event × Bool :=
  if cfg.ctxTest s && !(st.lastContext == some s) then
    ((report cfg { st with lastContext := some s }).1,
     (report cfg { st with lastContext := some s }).2,
     cfg.ctxTest s)
  else
    (st, [], cfg.ctxTest s)

/-- The patched `moduleRegex.test` (lines 86–95): symmetric to
`ctxTestCall`, updating `lastModule`. -/
def modTestCall (cfg : Config) (st : MState) (s : String) :
    MState × List Event × Bool :=
  if cfg.modTest s && !(st.lastModule == some s) then
    ((report cfg { st with lastModule := some s }).1,
     (report cfg { st with lastModule := some s }).2,
     cfg.modTest s)
  else
    (st, [], cfg.modTest s)

/-- One external `test` invocation made by the host bundler: either on
the wrapped context pattern or on the wrapped module pattern. -/
inductive Call where
  | ctx (s : String)
  | mod (s : String)
deriving DecidableEq, Repr

/-- Execute one `test` invocation, keeping state and events. -/
def step (cfg : Config) (st : MState) : Call → MState × List Event
  | .ctx s => ((ctxTestCall cfg st s).1, (ctxTestCall cfg st s).2.1)
  | .mod s => ((modTestCall cfg st s).1, (modTestCall cfg st s).2.1)

/-- Execute a sequence of `test` invocations from a state, returning
the final state and the concatenated event trace. -/
def run (cfg : Config) (st : MState) : List Call → MState × List Event
  | [] => (st, [])
  | c :: cs =>
    let p := step cfg st c
    let q := run cfg p.1 cs
    (q.1, p.2 ++ q.2)

/-- Recognise module-callback events in a trace. -/
def isModuleEvent : Event → Bool
  | .onModule _ _ _ _ => true
  | .onContext _ _ _ => false

/-! ## Setup layer: wrapping, cloning, double-wrap errors -/

/-- Observable data of a regex object: its `source` and `flags`
(copied by `regexp-clone`), and whether its `test` method has been
replaced by the instrumenter's patched version. -/
structure RegexData where
  source : String
  flags : String
  testPatched : Bool
deriving DecidableEq, Repr

/-- State of one instrumenter instance at the object level: a heap of
regex objects (identity → data), a fresh-identity counter, the two
wrapper slots (`contextRegex` / `moduleRegex`, holding the identity of
the stored clone once wrapped), and the closure variables. -/
structure JState where
  heap : List (Nat × RegexData)
  nextId : Nat
  contextRegex : Option Nat
  moduleRegex : Option Nat
  lastContext : Option String
  lastModule : Option String
  reportedContext : Bool
deriving DecidableEq, Repr

/-- Look up a regex object by identity (first binding wins). -/
def lookupObj : List (Nat × RegexData) → Nat → Option RegexData
  | [], _ => none
  | (i, d) :: rest, r => if i = r then some d else lookupObj rest r

/-- Replace the `test` method of the object with the given identity by
the instrumenter's patched version (in-place mutation of that one
object). -/
def setPatched : List (Nat × RegexData) → Nat → List (Nat × RegexData)
  | [], _ => []
  | (i, d) :: rest, r =>
    if i = r then (i, { d with testPatched := true }) :: rest
    else (i, d) :: setPatched rest r

/-- The `regexp-clone` dependency: allocate a fresh regex object with
the same `source` and `flags` as the given one and an unpatched `test`
method.  Returns the new state and the clone's identity. -/
def regexpClone (st : JState) (d : RegexData) : JState × Nat :=
  ({ st with
      heap := (st.nextId,
        { source := d.source, flags := d.flags, testPatched := false })
        :: st.heap,
      nextId := st.nextId + 1 },
   st.nextId)

/-- The `context` wrapper function (lines 51–72): if `contextRegex` is
already set, throw; otherwise clone the argument, store the clone in
`contextRegex`, patch the clone's `test`, and return the clone. -/
def contextWrap (st : JState) (r : Nat) : Except String Nat × JState :=
  if st.contextRegex.isSome then
    (.error "`context` can only be called once", st)
  else
    match lookupObj st.heap r with
    | none => (.error "not a regex object", st)
    | some d =>
      let p := regexpClone st d
      (.ok p.2,
       { p.1 with contextRegex := some p.2, heap := setPatched p.1.heap p.2 })

/-- The `module` wrapper function (lines 75–96): symmetric to
`contextWrap`, using the `moduleRegex` slot. -/
def moduleWrap (st : JState) (r : Nat) : Except String Nat × JState :=
  if st.moduleRegex.isSome then
    (.error "`module` can only be called once", st)
  else
    match lookupObj st.heap r with
    | none => (.error "not a regex object", st)
    | some d =>
      let p := regexpClone st d
      (.ok p.2,
       { p.1 with moduleRegex := some p.2, heap := setPatched p.1.heap p.2 })

/-- Closure variables of a `JState`, as a runtime-layer state. -/
def mstateOf (st : JState) : MState :=
  ⟨st.lastContext, st.lastModule, st.reportedContext⟩

/-! ## Theorems -/

/-- C5: with both callbacks provided, the end-to-end scenario
context `/icons` (match), module `a.svg` (match), module `b.svg`
(match), context `/icons` (match again, same value) produces exactly
the trace [onContext `/icons`, onModule `a.svg`, onModule `b.svg`]:
no second context event for the repeated same-value context match. -/
theorem end_to_end_log :
    (run
      { handleContext := true, handleModule := true, ctxId := 0, modId := 1,
        ctxTest := fun s => s == "/icons",
        modTest := fun s => s == "a.svg" || s == "b.svg" }
      initState
      [Call.ctx "/icons", Call.mod "a.svg", Call.mod "b.svg",
       Call.ctx "/icons"]).2 =
    [Event.onContext "/icons" 0 1,
     Event.onModule "a.svg" "/icons" 0 1,
     Event.onModule "b.svg" "/icons" 0 1] := by
  decide

/-- C1: the code's actual behaviour on the sequence of context values
`/a`, `/a`, `/b` (each context test followed by a matching module
test): because `reportedContext` is set once and never reset when
`lastContext` changes, `handleContext` fires exactly once (for `/a`)
and never fires for `/b` — not twice as the claim states. -/
theorem contextOnce_code_behavior :
    (run
      { handleContext := true, handleModule := true, ctxId := 0, modId := 1,
        ctxTest := fun s => s == "/a" || s == "/b",
        modTest := fun s => s == "m1" || s == "m2" || s == "m3" }
      initState
      [Call.ctx "/a", Call.mod "m1", Call.ctx "/a", Call.mod "m2",
       Call.ctx "/b", Call.mod "m3"]).2 =
    [Event.onContext "/a" 0 1,
     Event.onModule "m1" "/a" 0 1,
     Event.onModule "m2" "/a" 0 1,
     Event.onModule "m3" "/b" 0 1] := by
  decide

/-- C2: the wrapped `test` returns exactly what the original pattern's
matching semantics returns, on both the context and the module side,
for every state and input. -/
theorem wrapped_test_transparent :
    ∀ (cfg : Config) (st : MState) (s : String),
      (ctxTestCall cfg st s).2.2 = cfg.ctxTest s ∧
      (modTestCall cfg st s).2.2 = cfg.modTest s := by
  intro cfg st s
  constructor
  · unfold ctxTestCall
    split <;> rfl
  · unfold modTestCall
    split <;> rfl

/-- Helper: the `report` step does nothing (no state change, no
events) while `lastModule` is not truthy. -/
theorem report_module_unset (cfg : Config) (st : MState)
    (h : truthy st.lastModule = false) : report cfg st = (st, []) := by
  unfold report
  simp [h]

/-- Helper: a context-side `test` call leaves `lastModule` untouched
and emits nothing while `lastModule` is unset. -/
theorem ctxTestCall_module_unset (cfg : Config) (st : MState) (s : String)
    (h : st.lastModule = none) :
    (ctxTestCall cfg st s).1.lastModule = none ∧
    (ctxTestCall cfg st s).2.1 = [] := by
  unfold ctxTestCall
  split
  · rw [report_module_unset cfg _ (by simp [truthy, h])]
    exact ⟨h, rfl⟩
  · exact ⟨h, rfl⟩

/-- Helper: one step from a state with `lastModule` unset, on a call
that is not a successful module match, emits nothing and keeps
`lastModule` unset. -/
theorem step_module_unset (cfg : Config) (st : MState) (c : Call)
    (h : st.lastModule = none)
    (hm : ∀ s, c = Call.mod s → cfg.modTest s = false) :
    (step cfg st c).1.lastModule = none ∧ (step cfg st c).2 = [] := by
  cases c with
  | ctx s => simpa [step] using ctxTestCall_module_unset cfg st s h
  | mod s =>
    have hres := hm s rfl
    simp [step, modTestCall, hres, h]

/-- Helper: starting from a state with `lastModule = null`, a call
sequence in which the module pattern matches nothing produces no
events and leaves `lastModule` unset. -/
theorem run_module_never_matches (cfg : Config) :
    ∀ (calls : List Call) (st : MState), st.lastModule = none →
      (∀ s, Call.mod s ∈ calls → cfg.modTest s = false) →
      (run cfg st calls).2 = [] ∧ (run cfg st calls).1.lastModule = none := by
  intro calls
  induction calls with
  | nil => intro st h _; exact ⟨rfl, h⟩
  | cons c cs ih =>
    intro st h hmod
    have hc : ∀ s, c = Call.mod s → cfg.modTest s = false :=
      fun s hs => hmod s (hs ▸ List.mem_cons_self _ _)
    have hstep := step_module_unset cfg st c h hc
    have ihr := ih (step cfg st c).1 hstep.1
      (fun s hs => hmod s (List.mem_cons_of_mem _ hs))
    refine ⟨?_, ?_⟩ <;> simp [run, hstep.2, ihr.1, ihr.2]

/-- C4: from the initial state, as long as the module pattern has not
matched any tested string, no callback fires at all — regardless of
how many context matches have occurred. -/
theorem no_report_before_both (cfg : Config) (calls : List Call)
    (hmod : ∀ s, Call.mod s ∈ calls → cfg.modTest s = false) :
    (run cfg initState calls).2 = [] :=
  (run_module_never_matches cfg calls initState rfl hmod).1

/-- C4 witness: context matches `/a` twice and a module test on
`nomatch.js` fails; no event is emitted. -/
theorem no_report_before_both_witness :
    (run
      { handleContext := true, handleModule := true, ctxId := 0, modId := 1,
        ctxTest := fun s => s == "/a", modTest := fun _ => false }
      initState
      [Call.ctx "/a", Call.mod "nomatch.js", Call.ctx "/a"]).2 = [] :=
  no_report_before_both _ _ (fun _ _ => rfl)

/-- Helper: the `report` step does nothing while `lastContext` is not
truthy, since both branches are guarded by `lastContext`. -/
theorem report_context_not_truthy (cfg : Config) (st : MState)
    (h : truthy st.lastContext = false) : report cfg st = (st, []) := by
  unfold report
  simp [h]

/-- C9: the empty string is falsy in the `lastContext && lastModule`
guards, so it is indistinguishable from `null` at the callback
interface: `report` does nothing while `lastContext = ""` or
`lastModule = ""`, and a test call that matches `""` on either side
records it but emits no event. -/
theorem empty_string_no_callback :
    ∀ (cfg : Config) (st : MState),
      (st.lastContext = some "" → report cfg st = (st, [])) ∧
      (st.lastModule = some "" → report cfg st = (st, [])) ∧
      (cfg.ctxTest "" = true → st.lastContext ≠ some "" →
        (ctxTestCall cfg st "").1.lastContext = some "" ∧
        (ctxTestCall cfg st "").2.1 = []) ∧
      (cfg.modTest "" = true → st.lastModule ≠ some "" →
        (modTestCall cfg st "").1.lastModule = some "" ∧
        (modTestCall cfg st "").2.1 = []) := by
  intro cfg st
  refine ⟨?_, ?_, ?_, ?_⟩
  · intro h
    exact report_context_not_truthy cfg st (by rw [h]; rfl)
  · intro h
    exact report_module_unset cfg st (by rw [h]; rfl)
  · intro h1 h2
    have hbeq : (st.lastContext == some "") = false :=
      beq_eq_false_iff_ne.mpr h2
    unfold ctxTestCall
    rw [h1, hbeq]
    rw [report_context_not_truthy cfg { st with lastContext := some "" }
      (by simp [truthy])]
    exact ⟨rfl, rfl⟩
  · intro h1 h2
    have hbeq : (st.lastModule == some "") = false :=
      beq_eq_false_iff_ne.mpr h2
    unfold modTestCall
    rw [h1, hbeq]
    rw [report_module_unset cfg { st with lastModule := some "" }
      (by simp [truthy])]
    exact ⟨rfl, rfl⟩

/-- C9 witness: with patterns matching `""`, a context test on `""`
sets `lastContext` but emits nothing, even though a module match is
already pending; symmetrically for a module test on `""`. -/
theorem empty_string_no_callback_witness :
    ((ctxTestCall
        { handleContext := true, handleModule := true, ctxId := 0, modId := 1,
          ctxTest := fun _ => true, modTest := fun _ => true }
        ⟨some "/a", some "m.js", false⟩ "").1.lastContext = some "" ∧
      (ctxTestCall
        { handleContext := true, handleModule := true, ctxId := 0, modId := 1,
          ctxTest := fun _ => true, modTest := fun _ => true }
        ⟨some "/a", some "m.js", false⟩ "").2.1 = []) ∧
    ((modTestCall
        { handleContext := true, handleModule := true, ctxId := 0, modId := 1,
          ctxTest := fun _ => true, modTest := fun _ => true }
        ⟨some "/a", some "m.js", false⟩ "").1.lastModule = some "" ∧
      (modTestCall
        { handleContext := true, handleModule := true, ctxId := 0, modId := 1,
          ctxTest := fun _ => true, modTest := fun _ => true }
        ⟨some "/a", some "m.js", false⟩ "").2.1 = []) :=
  ⟨(empty_string_no_callback _ _).2.2.1 rfl (by decide),
   (empty_string_no_callback _ _).2.2.2 rfl (by decide)⟩

/-- C6: whenever the module branch of `report` is enabled
(`handleModule` provided, `lastContext` and `lastModule` truthy), the
emitted module event carries `(lastModule, lastContext, contextRegex,
moduleRegex)` and is the last event of the step, after which
`lastModule` is cleared; consequently module matches `x.js`, `x.js`,
`y.js` under a fixed context fire three module events — the repeated
`x.js` fires because the intervening report cleared `lastModule`. -/
theorem report_onModule_args_and_clear :
    (∀ (cfg : Config) (st : MState),
      cfg.handleModule = true → truthy st.lastContext = true →
      truthy st.lastModule = true →
      (report cfg st).1.lastModule = none ∧
      (report cfg st).2.getLast? =
        some (Event.onModule (st.lastModule.getD "") (st.lastContext.getD "")
          cfg.ctxId cfg.modId)) ∧
    (run
      { handleContext := false, handleModule := true, ctxId := 0, modId := 1,
        ctxTest := fun s => s == "/c",
        modTest := fun s => s == "x.js" || s == "y.js" }
      initState
      [Call.ctx "/c", Call.mod "x.js", Call.mod "x.js", Call.mod "y.js"]).2 =
    [Event.onModule "x.js" "/c" 0 1, Event.onModule "x.js" "/c" 0 1,
     Event.onModule "y.js" "/c" 0 1] := by
  constructor
  · intro cfg st h1 h2 h3
    unfold report
    split <;> simp [h1, h2, h3]
  · decide

/-- C6 witness: at a concrete reportable state, `report` clears
`lastModule` and its last event is the module callback with the stored
module path, context path and both pattern identities. -/
theorem report_onModule_args_and_clear_witness :
    (report
      { handleContext := false, handleModule := true, ctxId := 5, modId := 6,
        ctxTest := fun _ => true, modTest := fun _ => true }
      ⟨some "/k", some "f.js", false⟩).1.lastModule = none ∧
    (report
      { handleContext := false, handleModule := true, ctxId := 5, modId := 6,
        ctxTest := fun _ => true, modTest := fun _ => true }
      ⟨some "/k", some "f.js", false⟩).2.getLast? =
      some (Event.onModule "f.js" "/k" 5 6) :=
  report_onModule_args_and_clear.1 _ _ rfl (by decide) (by decide)

/-- C3: a second call to the `context` wrapper (its slot already
occupied) throws its usage error synchronously, and likewise for the
`module` wrapper; a first call on each slot (slot empty, argument a
regex object) succeeds. -/
theorem doubleWrap_raises :
    ∀ (st : JState) (r : Nat) (d : RegexData),
      (st.contextRegex.isSome = true →
        contextWrap st r = (.error "`context` can only be called once", st)) ∧
      (st.moduleRegex.isSome = true →
        moduleWrap st r = (.error "`module` can only be called once", st)) ∧
      (st.contextRegex = none → lookupObj st.heap r = some d →
        (contextWrap st r).1 = .ok st.nextId) ∧
      (st.moduleRegex = none → lookupObj st.heap r = some d →
        (moduleWrap st r).1 = .ok st.nextId) := by
  intro st r d
  refine ⟨?_, ?_, ?_, ?_⟩
  · intro h
    unfold contextWrap
    rw [if_pos h]
  · intro h
    unfold moduleWrap
    rw [if_pos h]
  · intro h1 h2
    unfold contextWrap
    rw [h1, h2]
    rfl
  · intro h1 h2
    unfold moduleWrap
    rw [h1, h2]
    rfl

/-- C3 witness: on a fresh instance holding one regex object, wrapping
each side once succeeds, and wrapping each side a second time raises
the corresponding usage error with the state untouched. -/
theorem doubleWrap_raises_witness :
    ((contextWrap
        { heap := [(0, ⟨"a", "", false⟩)], nextId := 1,
          contextRegex := none, moduleRegex := none, lastContext := none,
          lastModule := none, reportedContext := false } 0).1 = .ok 1) ∧
    ((moduleWrap
        { heap := [(0, ⟨"a", "", false⟩)], nextId := 1,
          contextRegex := none, moduleRegex := none, lastContext := none,
          lastModule := none, reportedContext := false } 0).1 = .ok 1) ∧
    (contextWrap
        { heap := [(0, ⟨"a", "", false⟩)], nextId := 1,
          contextRegex := some 0, moduleRegex := none, lastContext := none,
          lastModule := none, reportedContext := false } 0 =
      (.error "`context` can only be called once",
        { heap := [(0, ⟨"a", "", false⟩)], nextId := 1,
          contextRegex := some 0, moduleRegex := none, lastContext := none,
          lastModule := none, reportedContext := false })) ∧
    (moduleWrap
        { heap := [(0, ⟨"a", "", false⟩)], nextId := 1,
          contextRegex := none, moduleRegex := some 0, lastContext := none,
          lastModule := none, reportedContext := false } 0 =
      (.error "`module` can only be called once",
        { heap := [(0, ⟨"a", "", false⟩)], nextId := 1,
          contextRegex := none, moduleRegex := some 0, lastContext := none,
          lastModule := none, reportedContext := false })) :=
  ⟨(doubleWrap_raises _ 0 ⟨"a", "", false⟩).2.2.1 rfl rfl,
   (doubleWrap_raises _ 0 ⟨"a", "", false⟩).2.2.2 rfl rfl,
   (doubleWrap_raises _ 0 ⟨"a", "", false⟩).1 rfl,
   (doubleWrap_raises _ 0 ⟨"a", "", false⟩).2.1 rfl⟩

/-- C10: when a wrapper call fails with the double-wrap error, the
whole instance state — heap, slots, `lastContext`, `lastModule`,
`reportedContext` — is returned exactly as it was, so any subsequent
run of the wrapped patterns behaves as if the failing call had never
happened. -/
theorem doubleWrap_state_unchanged :
    ∀ (st : JState) (r : Nat),
      (st.contextRegex.isSome = true →
        (contextWrap st r).2 = st ∧
        (∃ e, (contextWrap st r).1 = Except.error e) ∧
        ∀ (cfg : Config) (calls : List Call),
          run cfg (mstateOf (contextWrap st r).2) calls =
          run cfg (mstateOf st) calls) ∧
      (st.moduleRegex.isSome = true →
        (moduleWrap st r).2 = st ∧
        (∃ e, (moduleWrap st r).1 = Except.error e) ∧
        ∀ (cfg : Config) (calls : List Call),
          run cfg (mstateOf (moduleWrap st r).2) calls =
          run cfg (mstateOf st) calls) := by
  intro st r
  constructor
  · intro h
    have heq : contextWrap st r =
        (.error "`context` can only be called once", st) := by
      unfold contextWrap
      rw [if_pos h]
    rw [heq]
    exact ⟨rfl, ⟨_, rfl⟩, fun _ _ => rfl⟩
  · intro h
    have heq : moduleWrap st r =
        (.error "`module` can only be called once", st) := by
      unfold moduleWrap
      rw [if_pos h]
    rw [heq]
    exact ⟨rfl, ⟨_, rfl⟩, fun _ _ => rfl⟩

/-- C10 witness: a failing second `context` wrap on a concrete
populated instance returns the state unchanged, an error result, and
identical runtime behaviour afterwards. -/
theorem doubleWrap_state_unchanged_witness :
    ((contextWrap
        { heap := [(0, ⟨"a", "g", false⟩)], nextId := 1,
          contextRegex := some 0, moduleRegex := none,
          lastContext := some "/a", lastModule := some "m.js",
          reportedContext := true } 5).2 =
      { heap := [(0, ⟨"a", "g", false⟩)], nextId := 1,
        contextRegex := some 0, moduleRegex := none,
        lastContext := some "/a", lastModule := some "m.js",
        reportedContext := true }) ∧
    (∃ e, (contextWrap
        { heap := [(0, ⟨"a", "g", false⟩)], nextId := 1,
          contextRegex := some 0, moduleRegex := none,
          lastContext := some "/a", lastModule := some "m.js",
          reportedContext := true } 5).1 = Except.error e) ∧
    ∀ (cfg : Config) (calls : List Call),
      run cfg (mstateOf (contextWrap
        { heap := [(0, ⟨"a", "g", false⟩)], nextId := 1,
          contextRegex := some 0, moduleRegex := none,
          lastContext := some "/a", lastModule := some "m.js",
          reportedContext := true } 5).2) calls =
      run cfg (mstateOf
        { heap := [(0, ⟨"a", "g", false⟩)], nextId := 1,
          contextRegex := some 0, moduleRegex := none,
          lastContext := some "/a", lastModule := some "m.js",
          reportedContext := true }) calls :=
  (doubleWrap_state_unchanged _ 5).1 rfl

/-- C8: wrapping operates on an independent structural copy: given the
original regex object at identity `r`, a successful `context` wrap
leaves the original object exactly as it was (fields unchanged, `test`
not replaced), returns a fresh identity distinct from `r`, and the
stored clone has the same `source` and `flags` with only the clone's
`test` patched; symmetrically for the `module` wrap. -/
theorem wrap_copies_pattern :
    ∀ (st : JState) (r : Nat) (d : RegexData),
      lookupObj st.heap r = some d → r < st.nextId →
      (st.contextRegex = none →
        (contextWrap st r).1 = .ok st.nextId ∧ st.nextId ≠ r ∧
        lookupObj (contextWrap st r).2.heap r = some d ∧
        lookupObj (contextWrap st r).2.heap st.nextId =
          some ⟨d.source, d.flags, true⟩) ∧
      (st.moduleRegex = none →
        (moduleWrap st r).1 = .ok st.nextId ∧ st.nextId ≠ r ∧
        lookupObj (moduleWrap st r).2.heap r = some d ∧
        lookupObj (moduleWrap st r).2.heap st.nextId =
          some ⟨d.source, d.flags, true⟩) := by
  intro st r d hlook hlt
  have hne : st.nextId ≠ r := Nat.ne_of_gt hlt
  constructor
  · intro h1
    unfold contextWrap
    rw [h1, hlook]
    simp only [Option.isSome_none, Bool.false_eq_true, if_false]
    refine ⟨rfl, hne, ?_, ?_⟩
    · unfold regexpClone setPatched lookupObj
      simp [hne, hlook]
    · unfold regexpClone setPatched lookupObj
      simp
  · intro h1
    unfold moduleWrap
    rw [h1, hlook]
    simp only [Option.isSome_none, Bool.false_eq_true, if_false]
    refine ⟨rfl, hne, ?_, ?_⟩
    · unfold regexpClone setPatched lookupObj
      simp [hne, hlook]
    · unfold regexpClone setPatched lookupObj
      simp

/-- C8 witness: wrapping a concrete regex object on both sides leaves
the original object intact and stores a patched structural copy under
a fresh identity. -/
theorem wrap_copies_pattern_witness :
    ((contextWrap
        { heap := [(0, ⟨"icons", "i", false⟩)], nextId := 1,
          contextRegex := none, moduleRegex := none, lastContext := none,
          lastModule := none, reportedContext := false } 0).1 = .ok 1 ∧
      (1 : Nat) ≠ 0 ∧
      lookupObj (contextWrap
        { heap := [(0, ⟨"icons", "i", false⟩)], nextId := 1,
          contextRegex := none, moduleRegex := none, lastContext := none,
          lastModule := none, reportedContext := false } 0).2.heap 0 =
        some ⟨"icons", "i", false⟩ ∧
      lookupObj (contextWrap
        { heap := [(0, ⟨"icons", "i", false⟩)], nextId := 1,
          contextRegex := none, moduleRegex := none, lastContext := none,
          lastModule := none, reportedContext := false } 0).2.heap 1 =
        some ⟨"icons", "i", true⟩) ∧
    ((moduleWrap
        { heap := [(0, ⟨"icons", "i", false⟩)], nextId := 1,
          contextRegex := none, moduleRegex := none, lastContext := none,
          lastModule := none, reportedContext := false } 0).1 = .ok 1 ∧
      (1 : Nat) ≠ 0 ∧
      lookupObj (moduleWrap
        { heap := [(0, ⟨"icons", "i", false⟩)], nextId := 1,
          contextRegex := none, moduleRegex := none, lastContext := none,
          lastModule := none, reportedContext := false } 0).2.heap 0 =
        some ⟨"icons", "i", false⟩ ∧
      lookupObj (moduleWrap
        { heap := [(0, ⟨"icons", "i", false⟩)], nextId := 1,
          contextRegex := none, moduleRegex := none, lastContext := none,
          lastModule := none, reportedContext := false } 0).2.heap 1 =
        some ⟨"icons", "i", true⟩) :=
  ⟨(wrap_copies_pattern
      { heap := [(0, ⟨"icons", "i", false⟩)], nextId := 1,
        contextRegex := none, moduleRegex := none, lastContext := none,
        lastModule := none, reportedContext := false }
      0 ⟨"icons", "i", false⟩ rfl (by decide)).1 rfl,
   (wrap_copies_pattern
      { heap := [(0, ⟨"icons", "i", false⟩)], nextId := 1,
        contextRegex := none, moduleRegex := none, lastContext := none,
        lastModule := none, reportedContext := false }
      0 ⟨"icons", "i", false⟩ rfl (by decide)).2 rfl⟩

/-- Helper: every element of a Boolean-filtered list satisfies the
filtering predicate. -/
theorem all_of_filter {α : Type} (p : α → Bool) (l : List α) :
    (List.filter p l).all p = true :=
  List.all_eq_true.2 (fun _ he => (List.mem_filter.1 he).2)

/-- Helper: dropping `handleContext` from a configuration leaves the
`report` step's module branch untouched: the events are exactly the
module events of the full configuration's `report`, and `lastContext`
and `lastModule` evolve identically (only `reportedContext` may
differ). -/
theorem report_no_handleContext (cfg : Config) (st st' : MState)
    (h1 : st.lastContext = st'.lastContext)
    (h2 : st.lastModule = st'.lastModule) :
    (report { cfg with handleContext := false } st).2 =
      List.filter isModuleEvent (report cfg st').2 ∧
    (report { cfg with handleContext := false } st).1.lastContext =
      (report cfg st').1.lastContext ∧
    (report { cfg with handleContext := false } st).1.lastModule =
      (report cfg st').1.lastModule := by
  unfold report
  rw [h1, h2]
  split_ifs <;> simp_all [isModuleEvent]
  all_goals split_ifs <;> simp_all [isModuleEvent]

/-- Helper: one step without `handleContext` emits exactly the module
events of the same step with `handleContext`, with `lastContext` and
`lastModule` evolving identically. -/
theorem step_no_handleContext (cfg : Config) (st st' : MState) (c : Call)
    (h1 : st.lastContext = st'.lastContext)
    (h2 : st.lastModule = st'.lastModule) :
    (step { cfg with handleContext := false } st c).2 =
      List.filter isModuleEvent (step cfg st' c).2 ∧
    (step { cfg with handleContext := false } st c).1.lastContext =
      (step cfg st' c).1.lastContext ∧
    (step { cfg with handleContext := false } st c).1.lastModule =
      (step cfg st' c).1.lastModule := by
  cases c with
  | ctx s =>
    simp only [step, ctxTestCall]
    rw [h1]
    by_cases hc : (cfg.ctxTest s && !(st'.lastContext == some s)) = true
    · simp only [hc, if_pos]
      exact report_no_handleContext cfg _ _ rfl h2
    · simp only [hc, if_neg]
      exact ⟨rfl, h1, h2⟩
  | mod s =>
    simp only [step, modTestCall]
    rw [h2]
    by_cases hc : (cfg.modTest s && !(st'.lastModule == some s)) = true
    · simp only [hc, if_pos]
      exact report_no_handleContext cfg _ _ h1 rfl
    · simp only [hc, if_neg]
      exact ⟨rfl, h1, h2⟩

/-- Helper: a whole run without `handleContext` emits exactly the
module events of the same run with `handleContext`. -/
theorem run_no_handleContext (cfg : Config) :
    ∀ (calls : List Call) (st st' : MState),
      st.lastContext = st'.lastContext → st.lastModule = st'.lastModule →
      (run { cfg with handleContext := false } st calls).2 =
        List.filter isModuleEvent (run cfg st' calls).2 ∧
      (run { cfg with handleContext := false } st calls).1.lastContext =
        (run cfg st' calls).1.lastContext ∧
      (run { cfg with handleContext := false } st calls).1.lastModule =
        (run cfg st' calls).1.lastModule := by
  intro calls
  induction calls with
  | nil => intro st st' h1 h2; exact ⟨rfl, h1, h2⟩
  | cons c cs ih =>
    intro st st' h1 h2
    have hstep := step_no_handleContext cfg st st' c h1 h2
    have ihr := ih (step { cfg with handleContext := false } st c).1
      (step cfg st' c).1 hstep.2.1 hstep.2.2
    refine ⟨?_, ihr.2.1, ihr.2.2⟩
    simp [run, hstep.1, ihr.1, List.filter_append]

/-- Helper: with `handleModule` absent, the `report` step's module
branch is disabled, so none of its events is a module event. -/
theorem report_no_handleModule (cfg : Config) (st : MState) :
    (report { cfg with handleModule := false } st).2.all
      (fun e => !(isModuleEvent e)) = true := by
  unfold report
  split_ifs <;> simp [isModuleEvent]

/-- Helper: one step with `handleModule` absent emits no module
event. -/
theorem step_no_handleModule (cfg : Config) (st : MState) (c : Call) :
    (step { cfg with handleModule := false } st c).2.all
      (fun e => !(isModuleEvent e)) = true := by
  cases c with
  | ctx s =>
    simp only [step, ctxTestCall]
    split_ifs
    · exact report_no_handleModule cfg _
    · rfl
  | mod s =>
    simp only [step, modTestCall]
    split_ifs
    · exact report_no_handleModule cfg _
    · rfl

/-- Helper: a whole run with `handleModule` absent emits no module
event, from any state. -/
theorem run_no_handleModule (cfg : Config) :
    ∀ (calls : List Call) (st : MState),
      (run { cfg with handleModule := false } st calls).2.all
        (fun e => !(isModuleEvent e)) = true := by
  intro calls
  induction calls with
  | nil => intro st; rfl
  | cons c cs ih =>
    intro st
    have hstep := step_no_handleModule cfg st c
    have ihr := ih (step { cfg with handleModule := false } st c).1
    simp [run, List.all_append, hstep, ihr]

/-- C7: with `handleContext` absent, a run never emits a context
event — its trace is exactly the module-event part of the trace the
same instrumenter would produce with a context callback — and module
notifications still fire under the normal rules; symmetrically, with
`handleModule` absent, a run never emits a module event.  Either
missing callback's notifications are skipped without error (every
operation of the embedding is a total function). -/
theorem onModule_only_no_context_events :
    ∀ (cfg : Config) (calls : List Call),
      (run { cfg with handleContext := false } initState calls).2 =
        List.filter isModuleEvent (run cfg initState calls).2 ∧
      (run { cfg with handleContext := false } initState calls).2.all
        isModuleEvent = true ∧
      (run { cfg with handleModule := false } initState calls).2.all
        (fun e => !(isModuleEvent e)) = true := by
  intro cfg calls
  have h := run_no_handleContext cfg calls initState initState rfl rfl
  refine ⟨h.1, ?_, run_no_handleModule cfg calls initState⟩
  rw [h.1]
  exact all_of_filter isModuleEvent _
